import Mathlib

/-!
Verification development for the bedside-board per-user daily data layer.

The definitions below are a shallow embedding of `src/server/db.ts`
(the schema with a `metric_values` JSON text column on `day_data`),
of the zod validation schemas in the shared validation module, and of
`calculateDayNumber` from the client storage module.

Modelling conventions:
* The SQLite database is an explicit `DB` record of row lists.  List
  position models `rowid` / `created_at` insertion order (entries are
  appended at the tail), so `ORDER BY created_at DESC` is `reverse` of
  the filtered list and `ORDER BY created_at ASC` is the filtered list
  itself.  `datetime('now')` ties resolve to rowid order.
* The `metric_values` TEXT column holds `JSON.stringify` output or
  exogenously corrupted text.  It is modelled by `MetricText`: the
  `parsed m` constructor stands for text that `JSON.parse` maps back to
  the number map `m` (which is exactly what `JSON.stringify m` produces
  for these flat string-to-number records), and `corrupt` stands for
  text that `JSON.parse` throws on (or empty text, which the code also
  resolves to the empty map on both read paths).
* JS `Record<string, number>` values are association lists
  `List (String × Int)`; object spread `\x7b...a, ...b\x7d` is `mergeRecord`.
  Metric values are integers in the embedding (the zod boundary checks
  `.int()` on metric bounds; day metric values pass through unchanged,
  so their numeric type does not affect any algebraic claim).
* `generateId` (`Date.now` plus a random suffix, assumed unique) is
  modelled by a fresh-id counter carried in `DB.fresh`.
* `updated_at` / `created_at` timestamp contents are not modelled; the
  "did any field change" guard around the SQL UPDATE only affects the
  timestamp, so the state after the guard equals field-wise update.
-/

namespace Bedside

/-! ## Row types (SQLite tables) -/

structure UserRow where
  id : String
  admission_date : Option String
deriving Repr, DecidableEq

structure MetricRow where
  id : String
  userId : String
  name : String
  icon : String
  min_value : Int
  max_value : Int
  default_value : Int
  sort_order : Int
deriving Repr, DecidableEq

structure EventTypeRow where
  id : String
  userId : String
  name : String
  icon : String
  sort_order : Int
deriving Repr, DecidableEq

/-- The `metric_values` TEXT column of `day_data`: either text that
`JSON.parse` turns into a flat string-to-number map (the shape
`JSON.stringify` writes), or text that fails to parse (modelling
exogenous corruption; empty text behaves identically on both read
paths of the source). -/
inductive MetricText where
  | parsed (m : List (String × Int))
  | corrupt
deriving Repr, DecidableEq

structure DayRow where
  userId : String
  date : String
  mood : Option Int
  metric_values : MetricText
  notes : String
deriving Repr, DecidableEq

structure EventRow where
  id : String
  userId : String
  date : String
  time : String
  type : String
  note : Option String
deriving Repr, DecidableEq

structure QuestionRow where
  id : String
  userId : String
  date : String
  text : String
  answered : Int
deriving Repr, DecidableEq

/-- The whole SQLite store.  `fresh` is the counter behind `generateId`. -/
structure DB where
  users : List UserRow
  user_metrics : List MetricRow
  user_event_types : List EventTypeRow
  day_data : List DayRow
  events : List EventRow
  questions : List QuestionRow
  fresh : Nat
deriving Repr, DecidableEq

def emptyDB : DB :=
  { users := [], user_metrics := [], user_event_types := [],
    day_data := [], events := [], questions := [], fresh := 0 }

/-! ## API-level types (`db.ts` interfaces) -/

structure Metric where
  id : String
  name : String
  icon : String
  minValue : Int
  maxValue : Int
  defaultValue : Int
  sortOrder : Int
deriving Repr, DecidableEq

/-- `Omit<Metric, 'id'>`. -/
structure MetricInput where
  name : String
  icon : String
  minValue : Int
  maxValue : Int
  defaultValue : Int
  sortOrder : Int
deriving Repr, DecidableEq

structure EventType where
  id : String
  name : String
  icon : String
  sortOrder : Int
deriving Repr, DecidableEq

/-- `Omit<EventType, 'id'>`. -/
structure EventTypeInput where
  name : String
  icon : String
  sortOrder : Int
deriving Repr, DecidableEq

structure UserSettings where
  metrics : List Metric
  eventTypes : List EventType
  admissionDate : Option String
deriving Repr, DecidableEq

structure EventEntry where
  id : String
  time : String
  type : String
  note : Option String
deriving Repr, DecidableEq

structure Question where
  id : String
  text : String
  answered : Bool
deriving Repr, DecidableEq

structure DayData where
  date : String
  mood : Option Int
  metricValues : List (String × Int)
  notes : String
  events : List EventEntry
  questions : List Question
deriving Repr, DecidableEq

/-- The patch argument of `updateDayData`.  The outer `Option` is JS
field presence (`undefined` when absent); for `mood` and
`admissionDate` the inner `Option` is JS `null`. -/
structure DayPatch where
  mood : Option (Option Int)
  metricValues : Option (List (String × Int))
  notes : Option String
  admissionDate : Option (Option String)
deriving Repr, DecidableEq

/-! ## JS record helpers -/

/-- Property lookup on a JS record (first binding wins, as in the
runtime where keys are unique). -/
def lookupRecord (l : List (String × Int)) (k : String) : Option Int :=
  (l.find? (fun p => p.fst == k)).map (fun p => p.snd)

/-- JS object spread `\x7b...a, ...b\x7d`: the keys of `a` in order, each
carrying `b`'s value when `b` has the key, followed by the keys of `b`
not present in `a`, in `b`'s order. -/
def mergeRecord (a b : List (String × Int)) : List (String × Int) :=
  a.map (fun p =>
    match b.find? (fun q => q.fst == p.fst) with
    | some q => (p.fst, q.snd)
    | none => p)
  ++ b.filter (fun q => !(a.any (fun p => p.fst == q.fst)))

/-- `try \x7b JSON.parse(text) \x7d catch \x7b \x7b\x7d \x7d` on a stored
`metric_values` column. -/
def parseOrEmpty : MetricText → List (String × Int)
  | .parsed m => m
  | .corrupt => []

/-! ## Defaults and id generation -/

def DEFAULT_METRICS : List MetricInput :=
  [ { name := "Pain", icon := "🤕", minValue := 0, maxValue := 10, defaultValue := 0, sortOrder := 0 },
    { name := "Anxiety", icon := "😰", minValue := 0, maxValue := 10, defaultValue := 0, sortOrder := 1 },
    { name := "Energy", icon := "⚡", minValue := 0, maxValue := 10, defaultValue := 5, sortOrder := 2 } ]

def DEFAULT_EVENT_TYPES : List EventTypeInput :=
  [ { name := "Obs done", icon := "🩺", sortOrder := 0 },
    { name := "Bloods", icon := "🩸", sortOrder := 1 },
    { name := "ECG", icon := "💓", sortOrder := 2 },
    { name := "Scan/X-ray", icon := "📷", sortOrder := 3 },
    { name := "Doctor round", icon := "👨‍⚕️", sortOrder := 4 },
    { name := "Medication", icon := "💊", sortOrder := 5 },
    { name := "Meal", icon := "🍽️", sortOrder := 6 } ]

/-- `Date.now().toString(36) + Math.random().toString(36).substr(2)`,
modelled as a deterministic fresh-id supply. -/
def generateId (n : Nat) : String :=
  "gid-" ++ toString n

def seedMetrics (db : DB) (userId : String) : DB :=
  DEFAULT_METRICS.foldl
    (fun db m =>
      { db with
        user_metrics := db.user_metrics ++
          [{ id := generateId db.fresh, userId := userId, name := m.name,
             icon := m.icon, min_value := m.minValue, max_value := m.maxValue,
             default_value := m.defaultValue, sort_order := m.sortOrder }],
        fresh := db.fresh + 1 })
    db

def seedEventTypes (db : DB) (userId : String) : DB :=
  DEFAULT_EVENT_TYPES.foldl
    (fun db e =>
      { db with
        user_event_types := db.user_event_types ++
          [{ id := generateId db.fresh, userId := userId, name := e.name,
             icon := e.icon, sort_order := e.sortOrder }],
        fresh := db.fresh + 1 })
    db

/-! ## User operations -/

/-- First block of `getOrCreateUser`: `INSERT INTO users` when the
`SELECT` finds no row. -/
def ensureUserRow (db : DB) (userId : String) : DB :=
  if (db.users.find? (fun u => u.id == userId)).isSome then db
  else { db with users := db.users ++ [{ id := userId, admission_date := none }] }

/-- Second block of `getOrCreateUser`: seed the default metrics when
the user's metric count is zero. -/
def ensureMetrics (db : DB) (userId : String) : DB :=
  if (db.user_metrics.filter (fun m => m.userId == userId)).length == 0 then
    seedMetrics db userId
  else db

/-- Third block of `getOrCreateUser`: seed the default event types when
the user's event-type count is zero. -/
def ensureEventTypes (db : DB) (userId : String) : DB :=
  if (db.user_event_types.filter (fun e => e.userId == userId)).length == 0 then
    seedEventTypes db userId
  else db

/-- `getOrCreateUser`: the three blocks above, in source order. -/
def getOrCreateUser (db : DB) (userId : String) : DB :=
  ensureEventTypes (ensureMetrics (ensureUserRow db userId) userId) userId

def updateAdmissionDate (db : DB) (userId : String) (admissionDate : Option String) : DB :=
  { db with
    users := db.users.map (fun r =>
      if r.id == userId then { r with admission_date := admissionDate } else r) }

/-- The stored admission date as `getUserSettings` reads it
(`user?.admission_date ?? null`). -/
def storedAdmissionDate (db : DB) (userId : String) : Option String :=
  (db.users.find? (fun r => r.id == userId)).bind (fun r => r.admission_date)

/-! ## Sorting helpers (SQL ORDER BY) -/

/-- Insert into a list sorted ascending by an integer key, before the
first element with a key not smaller (stable for ties). -/
def insertByKey (key : α → Int) (r : α) : List α → List α
  | [] => [r]
  | x :: xs => if key r ≤ key x then r :: x :: xs else x :: insertByKey key r xs

/-- Stable sort ascending by an integer key (`ORDER BY sort_order`;
ties resolve to rowid order). -/
def sortByKey (key : α → Int) : List α → List α
  | [] => []
  | x :: xs => insertByKey key x (sortByKey key xs)

/-- Insert into a list sorted descending by string order. -/
def insertDateDesc (s : String) : List String → List String
  | [] => [s]
  | x :: xs => if x < s then s :: x :: xs else x :: insertDateDesc s xs

/-- Sort descending by string order (`ORDER BY date DESC` on TEXT). -/
def sortDatesDesc : List String → List String
  | [] => []
  | x :: xs => insertDateDesc x (sortDatesDesc xs)

/-- `SELECT DISTINCT` (keeps the first occurrence of each value). -/
def distinctKeep : List String → List String
  | [] => []
  | x :: xs => x :: (distinctKeep xs).filter (fun y => y != x)

/-! ## Settings -/

def getUserSettings (db : DB) (userId : String) : DB × UserSettings :=
  let db := getOrCreateUser db userId
  let metricsRaw := sortByKey (fun m => m.sort_order)
    (db.user_metrics.filter (fun m => m.userId == userId))
  let eventTypesRaw := sortByKey (fun e => e.sort_order)
    (db.user_event_types.filter (fun e => e.userId == userId))
  (db,
   { metrics := metricsRaw.map (fun m =>
       { id := m.id, name := m.name, icon := m.icon, minValue := m.min_value,
         maxValue := m.max_value, defaultValue := m.default_value,
         sortOrder := m.sort_order }),
     eventTypes := eventTypesRaw.map (fun e =>
       { id := e.id, name := e.name, icon := e.icon, sortOrder := e.sort_order }),
     admissionDate := storedAdmissionDate db userId })

/-! ## Day data -/

/-- The single `day_data` row for `(user, date)`
(`SELECT ... WHERE user_id = ? AND date = ?`). -/
def findDayRow (db : DB) (userId date : String) : Option DayRow :=
  db.day_data.find? (fun r => r.userId == userId && r.date == date)

/-- The stored metric map for `(user, date)` after the defensive parse;
empty when no row exists. -/
def storedMetricValues (db : DB) (userId date : String) : List (String × Int) :=
  match findDayRow db userId date with
  | some r => parseOrEmpty r.metric_values
  | none => []

def getDayData (db : DB) (userId date : String) : DB × DayData :=
  let db := getOrCreateUser db userId
  let dayRow := findDayRow db userId date
  let events :=
    ((db.events.filter (fun r => r.userId == userId && r.date == date)).reverse).map
      (fun r => ({ id := r.id, time := r.time, type := r.type, note := r.note } : EventEntry))
  let questions :=
    (db.questions.filter (fun r => r.userId == userId && r.date == date)).map
      (fun q => ({ id := q.id, text := q.text, answered := q.answered == (1 : Int) } : Question))
  let metricValues :=
    match dayRow with
    | some r => parseOrEmpty r.metric_values
    | none => []
  (db,
   { date := date,
     mood := dayRow.bind (fun r => r.mood),
     metricValues := metricValues,
     notes := (dayRow.map (fun r => r.notes)).getD "",
     events := events,
     questions := questions })

def updateDayData (db : DB) (userId date : String) (data : DayPatch) : DB :=
  let db := getOrCreateUser db userId
  let existing := findDayRow db userId date
  let db :=
    match existing with
    | some ex =>
        { db with
          day_data := db.day_data.map (fun r =>
            if r.userId == userId && r.date == date then
              { r with
                mood := data.mood.getD r.mood,
                metric_values :=
                  match data.metricValues with
                  | some mv => .parsed (mergeRecord (parseOrEmpty ex.metric_values) mv)
                  | none => r.metric_values,
                notes := data.notes.getD r.notes }
            else r) }
    | none =>
        { db with
          day_data := db.day_data ++
            [{ userId := userId, date := date,
               mood := data.mood.getD none,
               metric_values := .parsed (data.metricValues.getD []),
               notes := data.notes.getD "" }] }
  match data.admissionDate with
  | some v => updateAdmissionDate db userId v
  | none => db

/-- `SELECT DISTINCT date FROM day_data WHERE user_id = ?
ORDER BY date DESC LIMIT ?`. -/
def getDaysWithData (db : DB) (userId : String) (limit : Nat := 30) : List String :=
  let dates := distinctKeep ((db.day_data.filter (fun r => r.userId == userId)).map (fun r => r.date))
  (sortDatesDesc dates).take limit

/-! ## Events and questions -/

/-- `addEvent`; `none` models the SQLite `PRIMARY KEY` violation thrown
when the event id already exists. -/
def addEvent (db : DB) (userId date : String) (event : EventEntry) : Option DB :=
  if (db.events.find? (fun r => r.id == event.id)).isSome then none
  else some { db with
    events := db.events ++
      [{ id := event.id, userId := userId, date := date,
         time := event.time, type := event.type, note := event.note }] }

def deleteEvent (db : DB) (userId eventId : String) : DB :=
  { db with events := db.events.filter (fun r => !(r.id == eventId && r.userId == userId)) }

/-- `addQuestion`; `none` models the `PRIMARY KEY` violation. -/
def addQuestion (db : DB) (userId date : String) (question : Question) : Option DB :=
  if (db.questions.find? (fun r => r.id == question.id)).isSome then none
  else some { db with
    questions := db.questions ++
      [{ id := question.id, userId := userId, date := date,
         text := question.text, answered := if question.answered then 1 else 0 }] }

def updateQuestion (db : DB) (userId questionId : String) (answered : Bool) : DB :=
  { db with
    questions := db.questions.map (fun r =>
      if r.id == questionId && r.userId == userId then
        { r with answered := if answered then 1 else 0 }
      else r) }

def deleteQuestion (db : DB) (userId questionId : String) : DB :=
  { db with questions := db.questions.filter (fun r => !(r.id == questionId && r.userId == userId)) }

/-! ## Day-number computation (client storage module) -/

/-- Leap-year rule of the proleptic Gregorian calendar used by JS
`Date`. -/
def isLeap (y : Int) : Bool :=
  (y % 4 == 0 && y % 100 != 0) || y % 400 == 0

def daysInMonth (y m : Int) : Int :=
  if m == 2 then (if isLeap y then 29 else 28)
  else if m == 4 || m == 6 || m == 9 || m == 11 then 30
  else 31

/-- Civil days since the Unix epoch of a calendar date, the day count
underlying `new Date("YYYY-MM-DD").getTime()` (which is this value
times 86400000 ms). -/
def daysFromCivil (y m d : Int) : Int :=
  let yAdj := if m ≤ 2 then y - 1 else y
  let era := (if 0 ≤ yAdj then yAdj else yAdj - 399) / 400
  let yoe := yAdj - era * 400
  let mp := (m + 9) % 12
  let doy := (153 * mp + 2) / 5 + d - 1
  let doe := yoe * 365 + yoe / 4 - yoe / 100 + doy
  era * 146097 + doe - 719468

/-- Split a character list at dashes. -/
def splitOnDash : List Char → List (List Char)
  | [] => [[]]
  | c :: rest =>
    let r := splitOnDash rest
    if c = '-' then [] :: r
    else
      match r with
      | [] => [[c]]
      | g :: gs => (c :: g) :: gs

/-- Decimal value of a digit list (`none` on a non-digit). -/
def natOfDigits (cs : List Char) : Option Nat :=
  cs.foldl
    (fun acc c =>
      match acc with
      | some n => if c.isDigit then some (n * 10 + (c.toNat - 48)) else none
      | none => none)
    (some 0)

/-- Parse a `YYYY-MM-DD` string the way JS `new Date` accepts date-only
ISO strings: four digits, dash, two digits, dash, two digits, with a
calendar-valid month and day. -/
def parseYMD (s : String) : Option (Int × Int × Int) :=
  match splitOnDash s.toList with
  | [ys, ms, ds] =>
    if ys.length == 4 && ms.length == 2 && ds.length == 2 then
      match natOfDigits ys, natOfDigits ms, natOfDigits ds with
      | some y, some m, some d =>
        if 1 ≤ (m : Int) && (m : Int) ≤ 12 && 1 ≤ (d : Int) && (d : Int) ≤ daysInMonth (y : Int) (m : Int) then
          some ((y : Int), (m : Int), (d : Int))
        else none
      | _, _, _ => none
    else none
  | _ => none

/-- `calculateDayNumber` from the client storage module.  Date-only
strings denote UTC midnight, so `getTime()` is `daysFromCivil`
times 86400000 and `Math.floor(diffTime / 86400000)` is Euclidean
division by the positive constant 86400000.  A string JS cannot parse
makes the JS function return `NaN`; that case is modelled as `none`. -/
def calculateDayNumber (admissionDate : Option String) (currentDate : String) : Option Int :=
  match admissionDate with
  | none => none
  | some a =>
    match parseYMD a, parseYMD currentDate with
    | some (ya, ma, da), some (yc, mc, dc) =>
      let admission := daysFromCivil ya ma da * 86400000
      let current := daysFromCivil yc mc dc * 86400000
      let diffTime := current - admission
      let diffDays := diffTime / 86400000
      some (diffDays + 1)
    | _, _ => none

/-! ## Boundary validation (zod schemas)

String lengths are counted in characters; the claims only exercise
ASCII inputs, where this agrees with JS string length. -/

/-- `MetricSchema` acceptance: per-field checks only, exactly as the
zod object declares them (`id` 1–50 chars, `name` 1–100 chars, `icon`
at most 10 chars, `minValue` an integer in [0,100], `maxValue` an
integer in [1,100], `defaultValue` an integer in [0,100], `sortOrder`
a nonnegative integer).  Integrality is carried by the `Int` field
types. -/
def metricSchemaAccepts (m : Metric) : Bool :=
  1 ≤ m.id.length && m.id.length ≤ 50 &&
  1 ≤ m.name.length && m.name.length ≤ 100 &&
  m.icon.length ≤ 10 &&
  0 ≤ m.minValue && m.minValue ≤ 100 &&
  1 ≤ m.maxValue && m.maxValue ≤ 100 &&
  0 ≤ m.defaultValue && m.defaultValue ≤ 100 &&
  0 ≤ m.sortOrder

/-- `CreateMetricSchema = MetricSchema.omit(\x7b id: true \x7d)`. -/
def createMetricSchemaAccepts (m : MetricInput) : Bool :=
  1 ≤ m.name.length && m.name.length ≤ 100 &&
  m.icon.length ≤ 10 &&
  0 ≤ m.minValue && m.minValue ≤ 100 &&
  1 ≤ m.maxValue && m.maxValue ≤ 100 &&
  0 ≤ m.defaultValue && m.defaultValue ≤ 100 &&
  0 ≤ m.sortOrder

/-! ## General list helper lemmas -/

theorem find_map_pres {α : Type} {p : α → Bool} {g : α → α}
    (l : List α) (hp : ∀ x, p (g x) = p x) :
    (l.map g).find? p = (l.find? p).map g := by
  induction l with
  | nil => rfl
  | cons x xs ih =>
    simp only [List.map_cons, List.find?_cons]
    rw [hp x]
    cases hx : p x with
    | true => rfl
    | false => exact ih

theorem map_self_of_fix {α : Type} {f : α → α}
    (l : List α) (h : ∀ a ∈ l, f a = a) : l.map f = l := by
  induction l with
  | nil => rfl
  | cons x xs ih =>
    simp only [List.map_cons]
    rw [h x (by simp), ih (fun a ha => h a (by simp [ha]))]

/-! ## Lemmas about `mergeRecord` and `lookupRecord` -/

theorem lookupRecord_nil (k : String) : lookupRecord [] k = none := rfl

theorem mergeRecord_nil (b : List (String × Int)) : mergeRecord [] b = b := by
  simp [mergeRecord]

theorem lookupRecord_append (a b : List (String × Int)) (k : String) :
    lookupRecord (a ++ b) k = (lookupRecord a k).or (lookupRecord b k) := by
  simp only [lookupRecord, List.find?_append]
  cases a.find? (fun p => p.fst == k) <;> rfl

theorem lookupRecord_map_override (a b : List (String × Int)) (k : String) :
    lookupRecord (a.map (fun p =>
        match b.find? (fun q => q.fst == p.fst) with
        | some q => (p.fst, q.snd)
        | none => p)) k
      = (lookupRecord a k).map (fun v => (lookupRecord b k).getD v) := by
  induction a with
  | nil => rfl
  | cons p a ih =>
    simp only [List.map_cons, lookupRecord, List.find?_cons] at *
    by_cases hk : p.fst = k
    · subst hk
      have h1 : ((match b.find? (fun q => q.fst == p.fst) with
          | some q => (p.fst, q.snd)
          | none => p) : String × Int).fst = p.fst := by
        cases b.find? (fun q => q.fst == p.fst) <;> rfl
      rw [h1]
      simp only [beq_self_eq_true]
      cases hb : b.find? (fun q => q.fst == p.fst) <;> simp [lookupRecord, hb]
    · have h1 : ((match b.find? (fun q => q.fst == p.fst) with
          | some q => (p.fst, q.snd)
          | none => p) : String × Int).fst = p.fst := by
        cases b.find? (fun q => q.fst == p.fst) <;> rfl
      rw [h1]
      have h2 : (p.fst == k) = false := by simp [hk]
      rw [h2]
      exact ih

theorem lookupRecord_cons_ne (q : String × Int) (b : List (String × Int)) (k : String)
    (h : (q.fst == k) = false) : lookupRecord (q :: b) k = lookupRecord b k := by
  simp [lookupRecord, List.find?_cons, h]

theorem lookupRecord_filter_not_in (a b : List (String × Int)) (k : String) :
    lookupRecord (b.filter (fun q => !(a.any (fun p => p.fst == q.fst)))) k
      = if a.any (fun p => p.fst == k) then none else lookupRecord b k := by
  induction b with
  | nil => cases h : a.any (fun p => p.fst == k) <;> simp [lookupRecord, h]
  | cons q b ih =>
    simp only [List.filter_cons]
    by_cases hk : q.fst = k
    · subst hk
      cases h : a.any (fun p => p.fst == q.fst) with
      | true => simpa [h] using ih
      | false => simp [h, lookupRecord, List.find?_cons]
    · have h2 : (q.fst == k) = false := by simp [hk]
      rw [lookupRecord_cons_ne _ _ _ h2]
      cases h : a.any (fun p => p.fst == q.fst) with
      | true => simpa [h] using ih
      | false =>
        simp only [h, Bool.not_false, if_true]
        rw [lookupRecord_cons_ne _ _ _ h2]
        exact ih

theorem lookupRecord_eq_none_iff (a : List (String × Int)) (k : String) :
    lookupRecord a k = none ↔ a.any (fun p => p.fst == k) = false := by
  unfold lookupRecord
  cases hf : a.find? (fun p => p.fst == k) with
  | some p =>
    simp only [Option.map_some']
    constructor
    · intro h; exact Option.noConfusion h
    · intro h
      have hp := List.find?_some hf
      have hm := List.mem_of_find?_eq_some hf
      rw [List.any_eq_false] at h
      exact absurd hp (h p hm)
  | none =>
    simp only [Option.map_none']
    constructor
    · intro _
      rw [List.any_eq_false]
      intro p hp
      exact List.find?_eq_none.mp hf p hp
    · intro _; trivial

/-- The defining property of JS object spread: a key maps to `b`'s
value when `b` has it, else to `a`'s value when `a` has it, and is
absent otherwise. -/
theorem lookupRecord_mergeRecord (a b : List (String × Int)) (k : String) :
    lookupRecord (mergeRecord a b) k = (lookupRecord b k).or (lookupRecord a k) := by
  unfold mergeRecord
  rw [lookupRecord_append, lookupRecord_map_override, lookupRecord_filter_not_in]
  cases ha : lookupRecord a k with
  | some v =>
    have : a.any (fun p => p.fst == k) = true := by
      by_contra hc
      have := (lookupRecord_eq_none_iff a k).mpr (by revert hc; cases a.any (fun p => p.fst == k) <;> simp)
      rw [this] at ha
      exact Option.noConfusion ha
    rw [this]
    simp only [if_true, Option.map_some, Option.or_none]
    cases hb : lookupRecord b k <;> simp [Option.or]
  | none =>
    rw [(lookupRecord_eq_none_iff a k).mp ha]
    simp [Option.or_none]

/-! ## Preservation lemmas for `getOrCreateUser` -/

theorem seedMetrics_day_data (db : DB) (u : String) :
    (seedMetrics db u).day_data = db.day_data := rfl

theorem seedEventTypes_day_data (db : DB) (u : String) :
    (seedEventTypes db u).day_data = db.day_data := rfl

theorem getOrCreateUser_day_data (db : DB) (u : String) :
    (getOrCreateUser db u).day_data = db.day_data := by
  unfold getOrCreateUser ensureEventTypes ensureMetrics ensureUserRow
  split <;> split <;> split <;> rfl

theorem getOrCreateUser_events (db : DB) (u : String) :
    (getOrCreateUser db u).events = db.events := by
  unfold getOrCreateUser ensureEventTypes ensureMetrics ensureUserRow
  split <;> split <;> split <;> rfl

theorem getOrCreateUser_questions (db : DB) (u : String) :
    (getOrCreateUser db u).questions = db.questions := by
  unfold getOrCreateUser ensureEventTypes ensureMetrics ensureUserRow
  split <;> split <;> split <;> rfl

theorem ensureMetrics_users (db : DB) (u : String) :
    (ensureMetrics db u).users = db.users := by
  unfold ensureMetrics
  split <;> rfl

theorem ensureEventTypes_users (db : DB) (u : String) :
    (ensureEventTypes db u).users = db.users := by
  unfold ensureEventTypes
  split <;> rfl

theorem getOrCreateUser_users (db : DB) (u : String) :
    ((db.users.find? (fun r => r.id == u)).isSome ∧ (getOrCreateUser db u).users = db.users) ∨
      (db.users.find? (fun r => r.id == u) = none ∧
        (getOrCreateUser db u).users = db.users ++ [{ id := u, admission_date := none }]) := by
  unfold getOrCreateUser
  rw [ensureEventTypes_users, ensureMetrics_users]
  unfold ensureUserRow
  cases hf : db.users.find? (fun r => r.id == u) with
  | some r => left; simp [hf]
  | none => right; exact ⟨rfl, by simp [hf]⟩

theorem ensureUserRow_user_metrics (db : DB) (u : String) :
    (ensureUserRow db u).user_metrics = db.user_metrics := by
  unfold ensureUserRow; split <;> rfl

theorem ensureEventTypes_user_metrics (db : DB) (u : String) :
    (ensureEventTypes db u).user_metrics = db.user_metrics := by
  unfold ensureEventTypes; split <;> rfl

theorem ensureUserRow_user_event_types (db : DB) (u : String) :
    (ensureUserRow db u).user_event_types = db.user_event_types := by
  unfold ensureUserRow; split <;> rfl

theorem ensureMetrics_user_event_types (db : DB) (u : String) :
    (ensureMetrics db u).user_event_types = db.user_event_types := by
  unfold ensureMetrics; split <;> rfl

/-- A user row for `u` is always present after `getOrCreateUser`. -/
theorem getOrCreateUser_user_exists (db : DB) (u : String) :
    ((getOrCreateUser db u).users.find? (fun r => r.id == u)).isSome := by
  rcases getOrCreateUser_users db u with ⟨hs, he⟩ | ⟨hn, he⟩
  · rw [he]; exact hs
  · rw [he, List.find?_append, hn]
    simp

/-- `getOrCreateUser` never changes the admission date a settings read
observes (a freshly inserted user row carries a null admission date,
which is also what the read returns for an absent user). -/
theorem storedAdmissionDate_getOrCreateUser (db : DB) (u : String) :
    storedAdmissionDate (getOrCreateUser db u) u = storedAdmissionDate db u := by
  unfold storedAdmissionDate
  rcases getOrCreateUser_users db u with ⟨_, he⟩ | ⟨hn, he⟩
  · rw [he]
  · rw [he, List.find?_append, hn]
    simp

/-! ## Lemmas about `updateAdmissionDate` and `updateDayData` -/

theorem updateAdmissionDate_day_data (db : DB) (u : String) (v : Option String) :
    (updateAdmissionDate db u v).day_data = db.day_data := rfl

/-- The trailing `admissionDate` step of `updateDayData` never touches
day rows. -/
theorem findDayRow_admission_step (o : Option (Option String)) (db : DB) (uu u d : String) :
    findDayRow (match o with | some v => updateAdmissionDate db uu v | none => db) u d
      = findDayRow db u d := by
  cases o <;> rfl

/-- Setting the admission date of an existing user makes the settings
read observe exactly that value. -/
theorem storedAdmissionDate_update (db : DB) (u : String) (v : Option String)
    (hex : ((db.users.find? (fun r => r.id == u)).isSome)) :
    storedAdmissionDate (updateAdmissionDate db u v) u = v := by
  unfold storedAdmissionDate updateAdmissionDate
  rw [find_map_pres db.users (fun r => ?_)]
  · cases hf : db.users.find? (fun r => r.id == u) with
    | none => rw [hf] at hex; exact absurd hex (by simp)
    | some r =>
      have hr := List.find?_some hf
      simp only [beq_iff_eq] at hr
      simp [hf, hr]
  · by_cases hr : (r.id == u) = true
    · simp only [hr, if_true]
    · simp only [hr, Bool.false_eq_true, if_false]

/-- Both branches of the day-row step leave the user table unchanged. -/
theorem updateDayData_core_users (db : DB) (u d : String) (p : DayPatch) :
    (match findDayRow db u d with
      | some ex =>
          { db with
            day_data := db.day_data.map (fun r =>
              if r.userId == u && r.date == d then
                { r with
                  mood := p.mood.getD r.mood,
                  metric_values :=
                    match p.metricValues with
                    | some mv => .parsed (mergeRecord (parseOrEmpty ex.metric_values) mv)
                    | none => r.metric_values,
                  notes := p.notes.getD r.notes }
              else r) }
      | none =>
          { db with
            day_data := db.day_data ++
              [{ userId := u, date := d,
                 mood := p.mood.getD none,
                 metric_values := .parsed (p.metricValues.getD []),
                 notes := p.notes.getD "" }] } : DB).users = db.users := by
  cases findDayRow db u d <;> rfl

/-! ## Membership lemmas for the date listing -/

theorem mem_insertDateDesc {x s : String} {l : List String}
    (h : x ∈ insertDateDesc s l) : x = s ∨ x ∈ l := by
  induction l with
  | nil => simpa [insertDateDesc] using h
  | cons y ys ih =>
    by_cases hc : y < s
    · simp only [insertDateDesc, if_pos hc] at h
      rcases List.mem_cons.mp h with h1 | h1
      · exact Or.inl h1
      · exact Or.inr h1
    · simp only [insertDateDesc, if_neg hc] at h
      rcases List.mem_cons.mp h with h1 | h1
      · exact Or.inr (by simp [h1])
      · rcases ih h1 with h2 | h2
        · exact Or.inl h2
        · exact Or.inr (by simp [h2])

theorem mem_sortDatesDesc {x : String} {l : List String}
    (h : x ∈ sortDatesDesc l) : x ∈ l := by
  induction l with
  | nil => simp [sortDatesDesc] at h
  | cons y ys ih =>
    unfold sortDatesDesc at h
    rcases mem_insertDateDesc h with h1 | h1
    · simp [h1]
    · simp [ih h1]

theorem mem_distinctKeep {x : String} {l : List String}
    (h : x ∈ distinctKeep l) : x ∈ l := by
  induction l with
  | nil => simp [distinctKeep] at h
  | cons y ys ih =>
    unfold distinctKeep at h
    rcases List.mem_cons.mp h with h1 | h1
    · simp [h1]
    · exact List.mem_cons_of_mem y (ih (List.mem_of_mem_filter h1))

/-- Membership in `getDaysWithData` implies a stored day row for that
user and date. -/
theorem mem_getDaysWithData {db : DB} {u d : String} {limit : Nat}
    (h : d ∈ getDaysWithData db u limit) :
    ∃ r ∈ db.day_data, r.userId = u ∧ r.date = d := by
  unfold getDaysWithData at h
  have h1 := mem_sortDatesDesc (List.mem_of_mem_take h)
  have h2 := mem_distinctKeep h1
  rcases List.mem_map.mp h2 with ⟨r, hr, hrd⟩
  rcases List.mem_filter.mp hr with ⟨hmem, hu⟩
  exact ⟨r, hmem, by simpa using hu, hrd⟩

/-! ## C7: day-number formula -/

/-- C7: For admission date `a` and date `d`, both valid `YYYY-MM-DD`
strings, `calculateDayNumber` returns exactly the civil-day difference
`d - a` plus one, i.e. `floor((d - a) in whole days) + 1`; on the
admission day it yields 1, and for dates before admission the result is
zero or negative, not clamped.  The statement equates the code's
millisecond computation with the spec-level day-difference formula. -/
theorem day_number_formula (a d : String) (ya ma da yd md dd : Int)
    (ha : parseYMD a = some (ya, ma, da)) (hd : parseYMD d = some (yd, md, dd)) :
    calculateDayNumber (some a) d
      = some ((daysFromCivil yd md dd - daysFromCivil ya ma da) + 1) := by
  have h86 : (86400000 : Int) ≠ 0 := by norm_num
  have hdiv : (daysFromCivil yd md dd * 86400000 - daysFromCivil ya ma da * 86400000) / 86400000
      = daysFromCivil yd md dd - daysFromCivil ya ma da := by
    rw [← Int.sub_mul]
    exact Int.mul_ediv_cancel _ h86
  simp only [calculateDayNumber, ha, hd, hdiv]

/-- Witness for C7: the three boundary examples from the spec.
`dayNumber("2024-03-15","2024-03-15") = 1`,
`dayNumber("2024-03-10","2024-03-15") = 6`, and the pre-admission
example `dayNumber("2024-03-15","2024-03-10") = -4`. -/
theorem day_number_formula_witness :
    calculateDayNumber (some "2024-03-15") "2024-03-15" = some 1 ∧
    calculateDayNumber (some "2024-03-10") "2024-03-15" = some 6 ∧
    calculateDayNumber (some "2024-03-15") "2024-03-10" = some (-4) := by
  refine ⟨?_, ?_, ?_⟩
  · rw [day_number_formula "2024-03-15" "2024-03-15" 2024 3 15 2024 3 15 (by decide) (by decide)]
    decide
  · rw [day_number_formula "2024-03-10" "2024-03-15" 2024 3 10 2024 3 15 (by decide) (by decide)]
    decide
  · rw [day_number_formula "2024-03-15" "2024-03-10" 2024 3 15 2024 3 10 (by decide) (by decide)]
    decide

/-! ## C9: boundary validation of metrics -/

/-- C9 counterexample: this input passes `MetricSchema` (every
per-field bound holds) yet violates both cross-field relations claimed
by the spec: `minValue > maxValue` and `defaultValue > maxValue`.  The
zod schema has no cross-field refinement, so the invariant
`minValue < maxValue ∧ minValue ≤ defaultValue ≤ maxValue` is not
enforced at the boundary. -/
theorem metric_validation_no_cross_field :
    metricSchemaAccepts
        { id := "m1", name := "Pain", icon := "", minValue := 50,
          maxValue := 10, defaultValue := 99, sortOrder := 0 } = true ∧
      ¬((50 : Int) < 10 ∧ (50 : Int) ≤ 99 ∧ (99 : Int) ≤ 10) := by
  constructor
  · decide
  · intro h
    exact absurd h.1 (by decide)

/-- C9 amended: the boundary validation enforces exactly the per-field
bounds of the zod schema — accepted metrics have `minValue ∈ [0,100]`,
`maxValue ∈ [1,100]`, `defaultValue ∈ [0,100]` and a nonnegative
`sortOrder` — but no cross-field relation between them. -/
theorem metric_validation_field_bounds (m : Metric)
    (h : metricSchemaAccepts m = true) :
    0 ≤ m.minValue ∧ m.minValue ≤ 100 ∧
    1 ≤ m.maxValue ∧ m.maxValue ≤ 100 ∧
    0 ≤ m.defaultValue ∧ m.defaultValue ≤ 100 ∧
    0 ≤ m.sortOrder := by
  unfold metricSchemaAccepts at h
  simp only [Bool.and_eq_true, decide_eq_true_eq] at h
  omega

/-- Witness for the amended C9 at a concrete accepted metric. -/
theorem metric_validation_field_bounds_witness :
    metricSchemaAccepts
        { id := "m2", name := "Energy", icon := "", minValue := 0,
          maxValue := 10, defaultValue := 5, sortOrder := 2 } = true ∧
      (0 : Int) ≤ 0 ∧ (0 : Int) ≤ 100 ∧ (1 : Int) ≤ 10 ∧ (10 : Int) ≤ 100 ∧
      (0 : Int) ≤ 5 ∧ (5 : Int) ≤ 100 ∧ (0 : Int) ≤ 2 := by
  have h : metricSchemaAccepts
      { id := "m2", name := "Energy", icon := "", minValue := 0,
        maxValue := 10, defaultValue := 5, sortOrder := 2 } = true := by decide
  have h2 := metric_validation_field_bounds _ h
  exact ⟨h, h2.1, h2.2.1, h2.2.2.1, h2.2.2.2.1, h2.2.2.2.2.1, h2.2.2.2.2.2.1, h2.2.2.2.2.2.2⟩

/-! ## Day-row tracking lemmas -/

theorem findDayRow_getOrCreateUser (db : DB) (uu u d : String) :
    findDayRow (getOrCreateUser db uu) u d = findDayRow db u d := by
  unfold findDayRow
  rw [getOrCreateUser_day_data]

theorem findDayRow_merge_map (l : List DayRow) (u d : String) (mt : MetricText) :
    (l.map (fun r =>
        if r.userId == u && r.date == d then
          { userId := r.userId, date := r.date, mood := r.mood,
            metric_values := mt, notes := r.notes }
        else r)).find? (fun r => r.userId == u && r.date == d)
      = (l.find? (fun r => r.userId == u && r.date == d)).map (fun r =>
          if r.userId == u && r.date == d then
            { userId := r.userId, date := r.date, mood := r.mood,
              metric_values := mt, notes := r.notes }
          else r) := by
  apply find_map_pres
  intro x
  by_cases hx : (x.userId == u && x.date == d) = true
  · rw [if_pos hx]
  · rw [if_neg hx]

/-- The net effect of a metric-values-only patch on the stored metric
map: shallow merge of the patch on top of the previously stored map
(the empty map when there was no row or the stored text did not
parse). -/
theorem storedMetricValues_update (db : DB) (u d : String) (mv : List (String × Int)) :
    storedMetricValues (updateDayData db u d
        { mood := none, metricValues := some mv, notes := none, admissionDate := none }) u d
      = mergeRecord (storedMetricValues db u d) mv := by
  simp only [updateDayData]
  cases hex : findDayRow (getOrCreateUser db u) u d with
  | none =>
    rw [findDayRow_getOrCreateUser] at hex
    simp only [findDayRow_getOrCreateUser, hex]
    unfold storedMetricValues findDayRow at *
    rw [List.find?_append, getOrCreateUser_day_data, hex]
    simp only [Option.none_or]
    simp [List.find?_cons, parseOrEmpty, mergeRecord_nil]
  | some ex =>
    have hex0 : findDayRow db u d = some ex := by
      rw [← findDayRow_getOrCreateUser db u u d]; exact hex
    simp only [findDayRow_getOrCreateUser, hex0]
    unfold storedMetricValues findDayRow
    simp only [Option.getD_none]
    rw [findDayRow_merge_map]
    rw [getOrCreateUser_day_data]
    unfold findDayRow at hex0
    rw [hex0]
    have hpex := List.find?_some hex0
    simp only [Option.map_some']
    rw [if_pos hpex]
    simp [parseOrEmpty]

/-- The aggregate's `metricValues` field is the stored metric map after
the defensive parse. -/
theorem getDayData_metricValues (db : DB) (u d : String) :
    (getDayData db u d).2.metricValues = storedMetricValues db u d := by
  have h := findDayRow_getOrCreateUser db u u d
  simp only [getDayData, storedMetricValues, h]

/-! ## C1: merge law for metric values -/

/-- C1: starting from a state with no stored metric values for
`(u, d)`, updating with `\x7bmetricValues: m1\x7d` and then
`\x7bmetricValues: m2\x7d` makes `getDayData` return exactly the shallow
merge of `m1` overwritten by `m2`; on that merge, every key resolves to
`m2`'s value when `m2` has it, else to `m1`'s value when `m1` has it,
and is absent when neither has it. -/
theorem metric_merge_law (db : DB) (u d : String) (m1 m2 : List (String × Int)) (k : String)
    (hempty : storedMetricValues db u d = []) :
    (getDayData (updateDayData (updateDayData db u d
          { mood := none, metricValues := some m1, notes := none, admissionDate := none }) u d
          { mood := none, metricValues := some m2, notes := none, admissionDate := none })
        u d).2.metricValues
      = mergeRecord m1 m2
    ∧ lookupRecord (mergeRecord m1 m2) k = (lookupRecord m2 k).or (lookupRecord m1 k) := by
  constructor
  · rw [getDayData_metricValues, storedMetricValues_update, storedMetricValues_update,
      hempty, mergeRecord_nil]
  · exact lookupRecord_mergeRecord m1 m2 k

/-- Witness for C1: the spec's scenario
`\x7ba:1\x7d` then `\x7bb:2\x7d` yields `\x7ba:1, b:2\x7d` — both keys retained. -/
theorem metric_merge_law_witness :
    ((getDayData (updateDayData (updateDayData emptyDB "u1" "2024-03-15"
          { mood := none, metricValues := some [("a", 1)], notes := none, admissionDate := none })
          "u1" "2024-03-15"
          { mood := none, metricValues := some [("b", 2)], notes := none, admissionDate := none })
        "u1" "2024-03-15").2.metricValues
      = mergeRecord [("a", 1)] [("b", 2)]
    ∧ lookupRecord (mergeRecord [("a", 1)] [("b", 2)]) "a"
      = (lookupRecord [("b", 2)] "a").or (lookupRecord [("a", 1)] "a"))
    ∧ mergeRecord [("a", 1)] [("b", 2)] = [("a", 1), ("b", 2)] :=
  ⟨metric_merge_law emptyDB "u1" "2024-03-15" [("a", 1)] [("b", 2)] "a" rfl, by decide⟩

/-! ## C10: corrupt stored metric maps are treated as empty -/

/-- C10: a stored day row whose `metric_values` text does not parse as
JSON is read back as the empty map (no error is raised: the functions
are total), and a metric-values update merges into the empty map, so
the stored result is exactly the patch's map. -/
theorem corrupt_metrics_as_empty (db : DB) (u d : String) (r : DayRow)
    (m : List (String × Int))
    (hr : findDayRow db u d = some r) (hc : r.metric_values = .corrupt) :
    (getDayData db u d).2.metricValues = []
    ∧ storedMetricValues (updateDayData db u d
        { mood := none, metricValues := some m, notes := none, admissionDate := none }) u d
      = m := by
  have hstored : storedMetricValues db u d = [] := by
    unfold storedMetricValues
    rw [hr]
    simp only [hc]
    rfl
  constructor
  · rw [getDayData_metricValues, hstored]
  · rw [storedMetricValues_update, hstored, mergeRecord_nil]

/-- A store whose only day row carries unparseable `metric_values`
text. -/
def corruptDB : DB :=
  { emptyDB with
    day_data := [{ userId := "u1", date := "2024-03-15", mood := none,
                   metric_values := .corrupt, notes := "" }] }

/-- Witness for C10 at a concrete corrupted row. -/
theorem corrupt_metrics_as_empty_witness :
    (getDayData corruptDB "u1" "2024-03-15").2.metricValues = []
    ∧ storedMetricValues (updateDayData corruptDB "u1" "2024-03-15"
        { mood := none, metricValues := some [("a", 1)], notes := none, admissionDate := none })
        "u1" "2024-03-15"
      = [("a", 1)] :=
  corrupt_metrics_as_empty corruptDB "u1" "2024-03-15" _ [("a", 1)] rfl rfl

/-! ## C8: silent no-op on foreign or absent ids -/

/-- C8: when no event row and no question row carries id `i` for user
`u` (the id is absent or owned by another user), `deleteEvent`,
`deleteQuestion` and `updateQuestion` leave the whole store unchanged
and complete without surfacing any error (they are total functions). -/
theorem silent_noop_foreign_ids (db : DB) (u i : String) (ans : Bool)
    (hev : ∀ r ∈ db.events, ¬(r.id = i ∧ r.userId = u))
    (hq : ∀ r ∈ db.questions, ¬(r.id = i ∧ r.userId = u)) :
    deleteEvent db u i = db ∧ deleteQuestion db u i = db ∧ updateQuestion db u i ans = db := by
  refine ⟨?_, ?_, ?_⟩
  · have he : db.events.filter (fun r => !(r.id == i && r.userId == u)) = db.events := by
      apply List.filter_eq_self.mpr
      intro r hr
      have h1 := hev r hr
      simp only [Bool.not_eq_true', Bool.and_eq_false_iff, beq_eq_false_iff_ne, ne_eq]
      tauto
    unfold deleteEvent
    rw [he]
  · have hf : db.questions.filter (fun r => !(r.id == i && r.userId == u)) = db.questions := by
      apply List.filter_eq_self.mpr
      intro r hr
      have h1 := hq r hr
      simp only [Bool.not_eq_true', Bool.and_eq_false_iff, beq_eq_false_iff_ne, ne_eq]
      tauto
    unfold deleteQuestion
    rw [hf]
  · have hm : db.questions.map (fun r =>
        if r.id == i && r.userId == u then
          { r with answered := if ans then 1 else 0 }
        else r) = db.questions := by
      apply map_self_of_fix
      intro r hr
      have hc : (r.id == i && r.userId == u) = false := by
        simpa using hq r hr
      rw [hc]
      simp
    unfold updateQuestion
    rw [hm]

/-- Witness for C8 at the empty store with an absent id. -/
theorem silent_noop_foreign_ids_witness :
    deleteEvent emptyDB "u1" "nope" = emptyDB ∧
    deleteQuestion emptyDB "u1" "nope" = emptyDB ∧
    updateQuestion emptyDB "u1" "nope" true = emptyDB :=
  silent_noop_foreign_ids emptyDB "u1" "nope" true (by simp [emptyDB]) (by simp [emptyDB])

/-! ## C3: first-write creation semantics -/

/-- C3: when no day row exists for `(u, d)`, `updateDayData` inserts a
row taking each present patch field as-is — `metric_values` is exactly
the serialized `patch.metricValues` (not merged into anything) — and
the defaults `mood = null`, `metricValues = \x7b\x7d`, `notes = ""` for
absent fields. -/
theorem first_write_creation (db : DB) (u d : String) (p : DayPatch)
    (hnone : findDayRow db u d = none) :
    findDayRow (updateDayData db u d p) u d
      = some { userId := u, date := d, mood := p.mood.getD none,
               metric_values := .parsed (p.metricValues.getD []),
               notes := p.notes.getD "" } := by
  have h1 : findDayRow (getOrCreateUser db u) u d = none := by
    unfold findDayRow at *
    rw [getOrCreateUser_day_data]
    exact hnone
  simp only [updateDayData, h1]
  cases hpad : p.admissionDate with
  | some v =>
    simp only [updateAdmissionDate, findDayRow, List.find?_append]
    unfold findDayRow at h1
    rw [h1]
    simp
  | none =>
    simp only [findDayRow, List.find?_append]
    unfold findDayRow at h1
    rw [h1]
    simp

/-- Witness for C3: first write with only `metricValues` present stores
the patch map as-is and defaults for the rest. -/
theorem first_write_creation_witness :
    findDayRow (updateDayData emptyDB "u1" "2024-03-15"
        { mood := none, metricValues := some [("a", 1)], notes := none,
          admissionDate := none }) "u1" "2024-03-15"
      = some { userId := "u1", date := "2024-03-15", mood := none,
               metric_values := .parsed [("a", 1)], notes := "" } :=
  first_write_creation emptyDB "u1" "2024-03-15" _ rfl

/-! ## C4: admission-date patches are global per user -/

/-- C4: an `admissionDate` field present in a day patch (including an
explicit null) is applied unconditionally to the per-user admission
date, for any target date `d` and independently of the rest of the
patch; an absent `admissionDate` leaves the user's admission date
unchanged. -/
theorem admission_patch_global (db : DB) (u d : String) (p : DayPatch) (v : Option String) :
    (p.admissionDate = some v →
      storedAdmissionDate (updateDayData db u d p) u = v) ∧
    (p.admissionDate = none →
      storedAdmissionDate (updateDayData db u d p) u = storedAdmissionDate db u) := by
  constructor
  · intro hp
    simp only [updateDayData, hp]
    cases hex : findDayRow (getOrCreateUser db u) u d with
    | some ex =>
      simp only [hex]
      apply storedAdmissionDate_update
      exact getOrCreateUser_user_exists db u
    | none =>
      simp only [hex]
      apply storedAdmissionDate_update
      exact getOrCreateUser_user_exists db u
  · intro hp
    simp only [updateDayData, hp]
    cases hex : findDayRow (getOrCreateUser db u) u d with
    | some ex =>
      simp only [hex]
      exact storedAdmissionDate_getOrCreateUser db u
    | none =>
      simp only [hex]
      exact storedAdmissionDate_getOrCreateUser db u

/-- Witness for C4: setting the admission date through one date, and a
patch without the field leaving it unchanged. -/
theorem admission_patch_global_witness :
    storedAdmissionDate (updateDayData emptyDB "u1" "2024-03-15"
        { mood := none, metricValues := none, notes := none,
          admissionDate := some (some "2024-03-01") }) "u1" = some "2024-03-01" ∧
    storedAdmissionDate (updateDayData emptyDB "u1" "2024-03-15"
        { mood := none, metricValues := none, notes := some "hi",
          admissionDate := none }) "u1" = storedAdmissionDate emptyDB "u1" :=
  ⟨(admission_patch_global emptyDB "u1" "2024-03-15" _ (some "2024-03-01")).1 rfl,
   (admission_patch_global emptyDB "u1" "2024-03-15" _ none).2 rfl⟩

/-! ## C2: default read without persistence -/

/-- An event logged for a date that has no day row (reachable through
`addEvent`, which never creates day rows). -/
def eventOnlyDB : DB :=
  (addEvent emptyDB "u1" "2024-03-15"
    { id := "e1", time := "08:00", type := "Obs done", note := none }).getD emptyDB

/-- C2 counterexample: a date for which no day row was ever written can
still have events, and then `getDayData` returns those events rather
than the claimed all-default aggregate with `events = []`.  The "no day
row" hypothesis alone does not yield the default aggregate. -/
theorem default_read_cex :
    eventOnlyDB.day_data = []
    ∧ (getDayData eventOnlyDB "u1" "2024-03-15").2.events
      = [{ id := "e1", time := "08:00", type := "Obs done", note := none }]
    ∧ (getDayData eventOnlyDB "u1" "2024-03-15").2.events ≠ [] := by
  refine ⟨rfl, by decide, ?_⟩
  intro h
  have h2 : (getDayData eventOnlyDB "u1" "2024-03-15").2.events
      = [{ id := "e1", time := "08:00", type := "Obs done", note := none }] := by decide
  rw [h] at h2
  exact List.noConfusion h2

/-- C2 amended: for a `(u, d)` with no stored day row, no events and no
questions, `getDayData` returns the structurally complete default
aggregate `\x7bmood: null, metricValues: \x7b\x7d, notes: "", events: [],
questions: []\x7d`, persists no day row, and a subsequent
`getDaysWithData` (any limit) does not include `d`. -/
theorem default_read_no_persist (db : DB) (u d : String)
    (hday : ∀ r ∈ db.day_data, ¬(r.userId = u ∧ r.date = d))
    (hev : ∀ r ∈ db.events, ¬(r.userId = u ∧ r.date = d))
    (hq : ∀ r ∈ db.questions, ¬(r.userId = u ∧ r.date = d)) :
    (getDayData db u d).2
      = { date := d, mood := none, metricValues := [], notes := "",
          events := [], questions := [] }
    ∧ (getDayData db u d).1.day_data = db.day_data
    ∧ ∀ limit, d ∉ getDaysWithData (getDayData db u d).1 u limit := by
  have hfind : findDayRow db u d = none := by
    unfold findDayRow
    apply List.find?_eq_none.mpr
    intro r hrr
    have h1 := hday r hrr
    simp only [Bool.and_eq_true, beq_iff_eq]
    tauto
  have hfind2 : findDayRow (getOrCreateUser db u) u d = none := by
    rw [findDayRow_getOrCreateUser]
    exact hfind
  have he : db.events.filter (fun r => r.userId == u && r.date == d) = [] := by
    apply List.filter_eq_nil_iff.mpr
    intro r hrr
    have h1 := hev r hrr
    simp only [Bool.and_eq_true, beq_iff_eq]
    tauto
  have hqq : db.questions.filter (fun r => r.userId == u && r.date == d) = [] := by
    apply List.filter_eq_nil_iff.mpr
    intro r hrr
    have h1 := hq r hrr
    simp only [Bool.and_eq_true, beq_iff_eq]
    tauto
  refine ⟨?_, ?_, ?_⟩
  · simp only [getDayData, hfind2, getOrCreateUser_events, getOrCreateUser_questions, he, hqq]
    rfl
  · simp only [getDayData]
    exact getOrCreateUser_day_data db u
  · intro limit hmem
    rcases mem_getDaysWithData hmem with ⟨r, hrmem, hru, hrd⟩
    have hdd : (getDayData db u d).1.day_data = db.day_data := by
      simp only [getDayData]
      exact getOrCreateUser_day_data db u
    rw [hdd] at hrmem
    exact hday r hrmem ⟨hru, hrd⟩

/-- Witness for the amended C2 at the empty store. -/
theorem default_read_no_persist_witness :
    (getDayData emptyDB "u1" "2024-03-15").2
      = { date := "2024-03-15", mood := none, metricValues := [], notes := "",
          events := [], questions := [] }
    ∧ (getDayData emptyDB "u1" "2024-03-15").1.day_data = emptyDB.day_data
    ∧ ∀ limit, "2024-03-15" ∉ getDaysWithData (getDayData emptyDB "u1" "2024-03-15").1 "u1" limit :=
  default_read_no_persist emptyDB "u1" "2024-03-15"
    (by simp [emptyDB]) (by simp [emptyDB]) (by simp [emptyDB])

/-! ## C5: insertion-order-descending events -/

/-- C5: adding `e1` and then `e2` for the same `(u, d)` makes
`getDayData` list `e2` immediately before `e1` at the head of the
events (latest added first), for arbitrary `time` fields of the two
events. -/
theorem event_insertion_order (db : DB) (u d : String) (e1 e2 : EventEntry) (db1 db2 : DB)
    (h1 : addEvent db u d e1 = some db1) (h2 : addEvent db1 u d e2 = some db2) :
    ∃ rest, (getDayData db2 u d).2.events = e2 :: e1 :: rest := by
  by_cases hc1 : ((db.events.find? (fun r => r.id == e1.id)).isSome)
  · rw [addEvent, if_pos hc1] at h1
    exact absurd h1 (by simp)
  · rw [addEvent, if_neg hc1] at h1
    by_cases hc2 : ((db1.events.find? (fun r => r.id == e2.id)).isSome)
    · rw [addEvent, if_pos hc2] at h2
      exact absurd h2 (by simp)
    · rw [addEvent, if_neg hc2] at h2
      injection h1 with h1
      subst h1
      injection h2 with h2
      subst h2
      refine ⟨((db.events.filter
        (fun r => r.userId == u && r.date == d)).reverse).map
          (fun r => ({ id := r.id, time := r.time, type := r.type, note := r.note } : EventEntry)), ?_⟩
      simp only [getDayData, getOrCreateUser_events]
      simp [List.filter_append, List.reverse_append]

/-- The two-event scenario of the spec, built through `addEvent`. -/
def twoEventDB1 : DB :=
  (addEvent emptyDB "u1" "2024-03-15"
    { id := "e1", time := "08:00", type := "Obs done", note := none }).getD emptyDB

def twoEventDB2 : DB :=
  (addEvent twoEventDB1 "u1" "2024-03-15"
    { id := "e2", time := "09:00", type := "Bloods", note := none }).getD emptyDB

/-- Witness for C5: the spec scenario returns `[e2, e1]` even though
`e2`'s time field is later than `e1`'s. -/
theorem event_insertion_order_witness :
    ∃ rest, (getDayData twoEventDB2 "u1" "2024-03-15").2.events
      = { id := "e2", time := "09:00", type := "Bloods", note := none }
        :: { id := "e1", time := "08:00", type := "Obs done", note := none } :: rest :=
  event_insertion_order emptyDB "u1" "2024-03-15" _ _ twoEventDB1 twoEventDB2 rfl rfl

/-! ## C6: default seeding and re-seed quirk -/

/-- C6: whenever the user's metric count is zero at call time (first
sight of the user, or after deleting every metric), `getUserSettings`
seeds and returns exactly the 3 default metrics (Pain, Anxiety,
Energy) in their fixed ascending sort order; and whenever the
event-type count is zero it seeds and returns exactly the 7 default
event types in their fixed ascending sort order.  A fresh user
satisfies both hypotheses at once. -/
theorem default_seeding (db : DB) (u : String) :
    (db.user_metrics.filter (fun m => m.userId == u) = [] →
      (getUserSettings db u).2.metrics.map
          (fun m => ({ name := m.name, icon := m.icon, minValue := m.minValue,
                       maxValue := m.maxValue, defaultValue := m.defaultValue,
                       sortOrder := m.sortOrder } : MetricInput))
        = DEFAULT_METRICS)
    ∧ (db.user_event_types.filter (fun e => e.userId == u) = [] →
      (getUserSettings db u).2.eventTypes.map
          (fun e => ({ name := e.name, icon := e.icon,
                       sortOrder := e.sortOrder } : EventTypeInput))
        = DEFAULT_EVENT_TYPES) := by
  constructor
  · intro hm
    have h0 : (ensureUserRow db u).user_metrics = db.user_metrics :=
      ensureUserRow_user_metrics db u
    have h1 : ensureMetrics (ensureUserRow db u) u = seedMetrics (ensureUserRow db u) u := by
      unfold ensureMetrics
      rw [h0, hm]
      simp
    have h2 : (getOrCreateUser db u).user_metrics
        = (seedMetrics (ensureUserRow db u) u).user_metrics := by
      unfold getOrCreateUser
      rw [h1, ensureEventTypes_user_metrics]
    simp only [getUserSettings, h2]
    simp only [seedMetrics, DEFAULT_METRICS, List.foldl_cons, List.foldl_nil]
    rw [h0]
    simp only [List.filter_append, hm, List.nil_append]
    simp [sortByKey, insertByKey]
  · intro he
    have h0 : (ensureMetrics (ensureUserRow db u) u).user_event_types
        = db.user_event_types := by
      rw [ensureMetrics_user_event_types, ensureUserRow_user_event_types]
    have h1 : getOrCreateUser db u
        = seedEventTypes (ensureMetrics (ensureUserRow db u) u) u := by
      unfold getOrCreateUser ensureEventTypes
      rw [h0, he]
      simp
    simp only [getUserSettings, h1]
    simp only [seedEventTypes, DEFAULT_EVENT_TYPES, List.foldl_cons, List.foldl_nil]
    rw [h0]
    simp only [List.filter_append, he, List.nil_append]
    simp [sortByKey, insertByKey]

/-- Witness for C6 at a fresh user: exactly the 3 default metrics and 7
default event types, in order. -/
theorem default_seeding_witness :
    (getUserSettings emptyDB "u1").2.metrics.map
        (fun m => ({ name := m.name, icon := m.icon, minValue := m.minValue,
                     maxValue := m.maxValue, defaultValue := m.defaultValue,
                     sortOrder := m.sortOrder } : MetricInput))
      = DEFAULT_METRICS
    ∧ (getUserSettings emptyDB "u1").2.eventTypes.map
        (fun e => ({ name := e.name, icon := e.icon,
                     sortOrder := e.sortOrder } : EventTypeInput))
      = DEFAULT_EVENT_TYPES :=
  ⟨(default_seeding emptyDB "u1").1 rfl, (default_seeding emptyDB "u1").2 rfl⟩

end Bedside
